/-
Verification of the reference-promotion core of gitlab-fork-cli.

The development shallowly embeds two implementations found in the
repository:

* `pkg/gitops.go` — the Go orchestration: `checkRemoteRefExistence`
  (remote reference classification) and `PerformGitOperation`
  (clone / remote setup / refspec push / push-error handling with the
  tag-conflict policy).  Network effects are abstracted into a `GitEnv`
  record carrying what each remote call would return, and the function
  additionally yields a trace of the remote-touching actions taken.

* the promotion shell script (steps 3-10) — the clone-and-push pipeline
  with the default-branch-existence upload strategy, the ephemeral
  local/remote branches and the cleanup block, embedded as `scriptRun`
  over a `ScriptEnv` of command results, yielding an exit code, a trace
  of git actions and the final value of the remote-temp-branch variable.
-/
import Mathlib

namespace GitlabForkCli

instance {ε α : Type} [DecidableEq ε] [DecidableEq α] : DecidableEq (Except ε α) :=
  fun a b =>
  match a, b with
  | Except.error e, Except.error f => decidable_of_iff (e = f) (by simp)
  | Except.error _, Except.ok _ => isFalse (fun hh => Except.noConfusion hh)
  | Except.ok _, Except.error _ => isFalse (fun hh => Except.noConfusion hh)
  | Except.ok x, Except.ok y => decidable_of_iff (x = y) (by simp)

/-! ### String helpers (models of Go's strings.HasPrefix / strings.Contains) -/

/-- `listIsPre p s` is true iff `p` is a leading segment of `s`
(character-for-character), the model of Go's `strings.HasPrefix`. -/
def listIsPre : List Char → List Char → Bool
  | [], _ => true
  | _ :: _, [] => false
  | a :: as, b :: bs => a == b && listIsPre as bs

/-- `listHasSub sub s` is true iff `sub` occurs contiguously inside `s`,
the model of Go's `strings.Contains`. -/
def listHasSub (sub : List Char) : List Char → Bool
  | [] => listIsPre sub []
  | c :: cs => listIsPre sub (c :: cs) || listHasSub sub cs

/-- Go `strings.HasPrefix s pre`. -/
def strHasPre (s pre : String) : Bool := listIsPre pre.data s.data

/-- Go `strings.Contains s sub`. -/
def strContains (s sub : String) : Bool := listHasSub sub.data s.data

/-- Drop the first `n` characters of a string (used to model go-git's
`ReferenceName.Short`, which strips the matched `refs/...` category). -/
def strDropLen (s : String) (n : Nat) : String := String.mk (s.data.drop n)

/-! ### Reference classification (`pkg/gitops.go`, `RefType` and
`checkRemoteRefExistence`) -/

/-- `RefType` from gitops.go: `RefTypeUnknown | RefTypeTag | RefTypeBranch`. -/
inductive RefType where
  | unknown
  | tag
  | branch
  deriving DecidableEq, Repr

/-- go-git `ReferenceName.IsTag`: full name begins with `refs/tags/`. -/
def isTagRefName (n : String) : Bool := strHasPre n "refs/tags/"

/-- go-git `ReferenceName.IsBranch`: full name begins with `refs/heads/`. -/
def isBranchRefName (n : String) : Bool := strHasPre n "refs/heads/"

/-- go-git `ReferenceName.Short`: the name with its matched category
stripped (`refs/tags/` is 10 characters, `refs/heads/` is 11). -/
def shortRefName (n : String) : String :=
  if isTagRefName n then strDropLen n 10
  else if isBranchRefName n then strDropLen n 11
  else n

/-- The tag short-names collected by the loop in `checkRemoteRefExistence`
(`if ref.Name().IsTag()` branch). -/
def tagsOf (refs : List String) : List String :=
  (refs.filter isTagRefName).map shortRefName

/-- The branch short-names collected by the loop in
`checkRemoteRefExistence` (`else if ref.Name().IsBranch()` branch). -/
def branchesOf (refs : List String) : List String :=
  (refs.filter (fun r => !isTagRefName r && isBranchRefName r)).map shortRefName

/-- `checkRemoteRefExistence` from gitops.go.  The network call
`rem.List(listOptions)` is abstracted as its result `listRes` (the full
reference names advertised by the remote, or a transport error).  Tags
are checked before branches, exactly as in the source. -/
def checkRemoteRefExistence (listRes : Except String (List String))
    (refName : String) : Except String RefType :=
  match listRes with
  | .error e => .error ("列出远程引用失败: " ++ e)
  | .ok refs =>
    if refName ∈ tagsOf refs then .ok RefType.tag
    else if refName ∈ branchesOf refs then .ok RefType.branch
    else .ok RefType.unknown

/-! ### Basic lemmas about the string helpers -/

theorem listIsPre_append (p r : List Char) : listIsPre p (p ++ r) = true := by
  induction p with
  | nil => rfl
  | cons a as ih => simp [listIsPre, ih]

theorem isTagRefName_append (n : String) :
    isTagRefName ("refs/tags/" ++ n) = true := by
  unfold isTagRefName strHasPre
  rw [String.data_append]
  exact listIsPre_append _ _

theorem isBranchRefName_append (n : String) :
    isBranchRefName ("refs/heads/" ++ n) = true := by
  unfold isBranchRefName strHasPre
  rw [String.data_append]
  exact listIsPre_append _ _

theorem shortRefName_tag (n : String) :
    shortRefName ("refs/tags/" ++ n) = n := by
  unfold shortRefName strDropLen
  rw [isTagRefName_append]
  simp only [if_true]
  rw [String.data_append]
  have h : ("refs/tags/" : String).data.length = 10 := by decide
  rw [← h, List.drop_left]

theorem listIsPre_tags_heads (l : List Char) :
    listIsPre ("refs/tags/" : String).data (("refs/heads/" : String).data ++ l) = false :=
  rfl

theorem shortRefName_branch (n : String) :
    shortRefName ("refs/heads/" ++ n) = n := by
  have htag : isTagRefName ("refs/heads/" ++ n) = false := by
    unfold isTagRefName strHasPre
    rw [String.data_append]
    exact listIsPre_tags_heads n.data
  unfold shortRefName strDropLen
  rw [htag, isBranchRefName_append]
  simp only [if_false, if_true, Bool.false_eq_true]
  rw [String.data_append]
  have h : ("refs/heads/" : String).data.length = 11 := by decide
  rw [← h, List.drop_left]

theorem mem_tagsOf (refs : List String) (n : String)
    (h : ("refs/tags/" ++ n) ∈ refs) : n ∈ tagsOf refs := by
  unfold tagsOf
  refine List.mem_map.2 ⟨"refs/tags/" ++ n, ?_, shortRefName_tag n⟩
  exact List.mem_filter.2 ⟨h, isTagRefName_append n⟩

/-- C2: if a name is advertised by the remote both as `refs/tags/<name>`
and as `refs/heads/<name>`, `checkRemoteRefExistence` classifies it as a
tag — the tag membership test runs before the branch membership test. -/
theorem claim_c2_tag_precedence (refs : List String) (n : String)
    (htag : ("refs/tags/" ++ n) ∈ refs)
    (hbr : ("refs/heads/" ++ n) ∈ refs) :
    checkRemoteRefExistence (Except.ok refs) n = Except.ok RefType.tag := by
  simp only [checkRemoteRefExistence]
  rw [if_pos (mem_tagsOf refs n htag)]

/-- Witness for C2 on a concrete remote advertising `v1` as both a tag
and a branch. -/
theorem claim_c2_tag_precedence_witness :
    checkRemoteRefExistence
      (Except.ok ["refs/heads/v1", "refs/tags/v1", "refs/heads/main"]) "v1"
      = Except.ok RefType.tag :=
  claim_c2_tag_precedence _ "v1" (by decide) (by decide)

/-! ### The Go orchestration (`PerformGitOperation` in `pkg/gitops.go`)

Network calls are abstracted into a `GitEnv` record carrying the result
each remote interaction would produce; the embedded function returns the
result value of `PerformGitOperation` together with a trace of the
remote-touching actions it performed, in order. -/

/-- `GitOperationOptions` from gitops.go.  The two `GitAuthMethod`
fields are modelled by whether an auth method is present (`nil` or not),
which is all the source consults them for. -/
structure GitOperationOptions where
  FromRepoURL : String
  FromRef : String
  FromAuth : Bool
  ToRepoURL : String
  ToTag : String
  ToAuth : Bool
  OutputDir : String
  OnTagExistsBehavior : String
  deriving DecidableEq, Repr

/-- The fields of go-git's `CloneOptions` that gitops.go sets
(lines 86-105). -/
structure CloneOptionsM where
  url : String
  insecureSkipTLS : Bool
  depth : Nat
  singleBranch : Bool
  referenceName : String
  hasAuth : Bool
  deriving DecidableEq, Repr

/-- The fields of go-git's `PushOptions` that gitops.go sets
(lines 146-153). -/
structure PushOptionsM where
  remoteName : String
  insecureSkipTLS : Bool
  hasAuth : Bool
  deriving DecidableEq, Repr

/-- The fields of go-git's `ListOptions` that `checkRemoteRefExistence`
sets (lines 234-240). -/
structure ListOptionsM where
  appendPeeled : Bool
  insecureSkipTLS : Bool
  hasAuth : Bool
  deriving DecidableEq, Repr

/-- Clone options exactly as built in gitops.go: `InsecureSkipTLS: true`,
`Depth: 1`, `SingleBranch: true`, and `ReferenceName` set to the tag or
branch form of `FromRef` according to the classification. -/
def mkCloneOptions (opts : GitOperationOptions) (rt : RefType) : CloneOptionsM :=
  { url := opts.FromRepoURL
    insecureSkipTLS := true
    depth := 1
    singleBranch := true
    referenceName :=
      if rt = RefType.tag then "refs/tags/" ++ opts.FromRef
      else if rt = RefType.branch then "refs/heads/" ++ opts.FromRef
      else ""
    hasAuth := opts.FromAuth }

/-- Push options exactly as built in gitops.go: remote `"target"`,
`InsecureSkipTLS: true`. -/
def mkPushOptions (opts : GitOperationOptions) : PushOptionsM :=
  { remoteName := "target", insecureSkipTLS := true, hasAuth := opts.ToAuth }

/-- List options exactly as built in `checkRemoteRefExistence`:
`PeelingOption: AppendPeeled`, `InsecureSkipTLS: true`. -/
def mkListOptions (hasAuth : Bool) : ListOptionsM :=
  { appendPeeled := true, insecureSkipTLS := true, hasAuth := hasAuth }

/-- Result of the `git.PlainClone` call (and of the `git.PlainOpen`
fallback taken on `ErrRepositoryAlreadyExists`). -/
inductive CloneRes where
  | cloned
  | alreadyExistsOpenOk
  | alreadyExistsOpenFail (msg : String)
  | failed (msg : String)
  deriving DecidableEq, Repr

/-- Result of `r.CreateRemote` (and of the `r.Remote("target")` fallback
taken on `ErrRemoteExists`). -/
inductive RemoteRes where
  | created
  | existsGetOk
  | existsGetFail (msg : String)
  | failed (msg : String)
  deriving DecidableEq, Repr

/-- A non-nil error returned by `gitTarget.Push`: its message (consulted
by the `strings.Contains` quirk check) and whether
`errors.Is(err, git.NoErrAlreadyUpToDate)` holds. -/
structure PushErr where
  msg : String
  alreadyUpToDate : Bool
  deriving DecidableEq, Repr

/-- What each remote interaction of one `PerformGitOperation` run would
return. -/
structure GitEnv where
  sourceList : Except String (List String)
  cloneRes : CloneRes
  createRemoteRes : RemoteRes
  originRefHash : Except String String
  tagRefHash : Except String String
  pushRes : Option PushErr
  destList : Except String (List String)
  deriving Repr

/-- The distinct `return` sites of `PerformGitOperation`: plain success
(line 221), success via the transport-quirk recovery (line 192), the
non-error skip outcome of the `"skip"` policy (line 210), and a non-nil
error. -/
inductive PerformResult where
  | ok
  | okQuirk
  | okSkipped
  | err (msg : String)
  deriving DecidableEq, Repr

/-- The Go `error` value each `PerformResult` stands for: the three `ok`
constructors are all `return nil` in the source. -/
def toGoError : PerformResult → Option String
  | .ok => none
  | .okQuirk => none
  | .okSkipped => none
  | .err m => some m

/-- Remote-touching actions of a `PerformGitOperation` run, in order. -/
inductive Action where
  | listSource (o : ListOptionsM)
  | cloneAttempt (o : CloneOptionsM)
  | openExisting
  | createRemote
  | push (o : PushOptionsM) (refSpecs : List String)
  | listDest (o : ListOptionsM)
  deriving DecidableEq, Repr

/-- The error-string quirk of go-git issue 1600 matched at line 190. -/
def quirkMsg : String := "decode report-status: unknown channel unpack ok"

/-- Line 196-199: the name re-checked against the destination is `ToTag`,
falling back to `FromRef` when no destination tag was given. -/
def effectiveTag (opts : GitOperationOptions) : String :=
  if opts.ToTag = "" then opts.FromRef else opts.ToTag

/-- Lines 155-176: the push `RefSpecs`.  With a destination tag given,
the hash of the local ref (the tag ref when the source classified as a
tag, otherwise `refs/remotes/origin/<FromRef>`) is pushed to
`refs/tags/<ToTag>`; with no destination tag, all tags are pushed via
`refs/tags/*:refs/tags/*`. -/
def mkPushRefSpecs (opts : GitOperationOptions) (rt : RefType)
    (env : GitEnv) : Except String (List String) :=
  if opts.ToTag ≠ "" then
    match (if rt = RefType.tag then env.tagRefHash else env.originRefHash) with
    | .error e => .error ("无法获取本地引用 " ++ opts.FromRef ++ ": " ++ e)
    | .ok h => .ok [h ++ ":refs/tags/" ++ opts.ToTag]
  else
    .ok ["refs/tags/*:refs/tags/*"]

/-- Lines 180-221: the push and its error handling — the quirk-string
recovery, the `NoErrAlreadyUpToDate` re-classification against the
destination, the tag-conflict policy switch, and the fatal fallthrough. -/
def pushPhase (opts : GitOperationOptions) (specs : List String)
    (env : GitEnv) : PerformResult × List Action :=
  let po := mkPushOptions opts
  match env.pushRes with
  | none => (.ok, [Action.push po specs])
  | some e =>
    if strContains e.msg quirkMsg then
      (.okQuirk, [Action.push po specs])
    else if e.alreadyUpToDate then
      let tag := effectiveTag opts
      match checkRemoteRefExistence env.destList tag with
      | .error e2 =>
        (.err ("检查标签 '" ++ tag ++ "' 已存在于目标仓库 发生错误 " ++ e2 ++ "。"),
         [Action.push po specs, Action.listDest (mkListOptions opts.ToAuth)])
      | .ok rt2 =>
        if rt2 = RefType.tag then
          if opts.OnTagExistsBehavior = "error" then
            (.err ("标签 '" ++ tag ++ "' 已存在于目标仓库，且配置为报错模式。"),
             [Action.push po specs, Action.listDest (mkListOptions opts.ToAuth)])
          else if opts.OnTagExistsBehavior = "skip" then
            (.okSkipped,
             [Action.push po specs, Action.listDest (mkListOptions opts.ToAuth)])
          else
            (.err ("未知的 --on-tag-exists 行为: " ++ opts.OnTagExistsBehavior),
             [Action.push po specs, Action.listDest (mkListOptions opts.ToAuth)])
        else
          (.err ("推送失败: " ++ e.msg),
           [Action.push po specs, Action.listDest (mkListOptions opts.ToAuth)])
    else
      (.err ("推送失败: " ++ e.msg), [Action.push po specs])

/-- Steps 4-6 of `PerformGitOperation` (lines 127-221): destination
remote registration, refspec construction, push and push-error handling. -/
def afterCloneStage (opts : GitOperationOptions) (rt : RefType)
    (env : GitEnv) : PerformResult × List Action :=
  match env.createRemoteRes with
  | .failed e => (.err ("创建远程仓库配置失败: " ++ e), [Action.createRemote])
  | .existsGetFail e =>
    (.err ("无法获取已存在的远程 target: " ++ e), [Action.createRemote])
  | .created =>
    (match mkPushRefSpecs opts rt env with
     | .error e => (.err e, [Action.createRemote])
     | .ok specs =>
       let r := pushPhase opts specs env
       (r.1, Action.createRemote :: r.2))
  | .existsGetOk =>
    (match mkPushRefSpecs opts rt env with
     | .error e => (.err e, [Action.createRemote])
     | .ok specs =>
       let r := pushPhase opts specs env
       (r.1, Action.createRemote :: r.2))

/-- `PerformGitOperation` from gitops.go, end to end: source
classification, clone (with the open-existing fallback), then
`afterCloneStage`. -/
def PerformGitOperation (opts : GitOperationOptions) (env : GitEnv) :
    PerformResult × List Action :=
  let lsrc := Action.listSource (mkListOptions opts.FromAuth)
  match checkRemoteRefExistence env.sourceList opts.FromRef with
  | .error e =>
    (.err ("检查源仓库引用 (" ++ opts.FromRef ++ ") 失败: " ++ e), [lsrc])
  | .ok rt =>
    if rt = RefType.unknown then
      (.err ("源仓库中未找到分支或标签: " ++ opts.FromRef), [lsrc])
    else
      let co := mkCloneOptions opts rt
      match env.cloneRes with
      | .failed e => (.err ("克隆失败: " ++ e), [lsrc, Action.cloneAttempt co])
      | .alreadyExistsOpenFail e =>
        (.err ("无法打开现有仓库 " ++ opts.OutputDir ++ ": " ++ e),
         [lsrc, Action.cloneAttempt co, Action.openExisting])
      | .cloned =>
        let r := afterCloneStage opts rt env
        (r.1, [lsrc, Action.cloneAttempt co] ++ r.2)
      | .alreadyExistsOpenOk =>
        let r := afterCloneStage opts rt env
        (r.1, [lsrc, Action.cloneAttempt co, Action.openExisting] ++ r.2)

/-- C5: whenever the push returns an error whose message contains the
known transport-quirk string, the operation treats the push as success —
it takes the quirk return site and the Go error value is `nil`. -/
theorem claim_c5_quirk_success (opts : GitOperationOptions)
    (specs : List String) (env : GitEnv) (e : PushErr)
    (hp : env.pushRes = some e)
    (hq : strContains e.msg quirkMsg = true) :
    (pushPhase opts specs env).1 = PerformResult.okQuirk ∧
    toGoError (pushPhase opts specs env).1 = none := by
  simp [pushPhase, hp, hq, toGoError]

def optsQuirk : GitOperationOptions :=
  { FromRepoURL := "https://src.example/repo.git", FromRef := "v0.0.1"
    FromAuth := true, ToRepoURL := "https://dst.example/repo.git"
    ToTag := "", ToAuth := true, OutputDir := "/tmp/wd"
    OnTagExistsBehavior := "error" }

def errQuirk : PushErr :=
  { msg := "unexpected error: decode report-status: unknown channel unpack ok"
    alreadyUpToDate := false }

def envQuirk : GitEnv :=
  { sourceList := Except.ok ["refs/tags/v0.0.1", "refs/heads/main"]
    cloneRes := CloneRes.cloned, createRemoteRes := RemoteRes.created
    originRefHash := Except.ok "0a1b2c", tagRefHash := Except.ok "0a1b2c"
    pushRes := some errQuirk, destList := Except.ok ["refs/heads/main"] }

/-- Witness for C5 on a concrete quirk-carrying push error. -/
theorem claim_c5_quirk_success_witness :
    (pushPhase optsQuirk ["refs/tags/*:refs/tags/*"] envQuirk).1
      = PerformResult.okQuirk ∧
    toGoError (pushPhase optsQuirk ["refs/tags/*:refs/tags/*"] envQuirk).1
      = none :=
  claim_c5_quirk_success optsQuirk ["refs/tags/*:refs/tags/*"] envQuirk
    errQuirk rfl (by decide)

/-- C4: on an already-up-to-date push whose re-classification against the
destination returns `Tag`, the conflict policy decides the outcome —
`"error"` fails with the reference-already-exists message, `"skip"`
returns the non-error skipped outcome; when the destination classifies
the name as anything other than `Tag`, the policy is not consulted and
the push error is returned as a plain failure. -/
theorem claim_c4_conflict_policy (opts : GitOperationOptions)
    (specs : List String) (env : GitEnv) (e : PushErr)
    (hp : env.pushRes = some e)
    (hq : strContains e.msg quirkMsg = false)
    (hu : e.alreadyUpToDate = true) :
    (checkRemoteRefExistence env.destList (effectiveTag opts)
        = Except.ok RefType.tag →
      (opts.OnTagExistsBehavior = "error" →
        (pushPhase opts specs env).1 = PerformResult.err
          ("标签 '" ++ effectiveTag opts ++ "' 已存在于目标仓库，且配置为报错模式。")) ∧
      (opts.OnTagExistsBehavior = "skip" →
        (pushPhase opts specs env).1 = PerformResult.okSkipped ∧
        toGoError (pushPhase opts specs env).1 = none)) ∧
    (∀ rt2 : RefType,
      checkRemoteRefExistence env.destList (effectiveTag opts) = Except.ok rt2 →
      rt2 ≠ RefType.tag →
      (pushPhase opts specs env).1 = PerformResult.err ("推送失败: " ++ e.msg)) := by
  constructor
  · intro ht
    constructor
    · intro hpol
      simp [pushPhase, hp, hq, hu, ht, hpol]
    · intro hpol
      simp [pushPhase, hp, hq, hu, ht, hpol, toGoError]
  · intro rt2 ht hne
    simp [pushPhase, hp, hq, hu, ht, hne]

def optsSkip : GitOperationOptions :=
  { FromRepoURL := "https://src.example/repo.git", FromRef := "v0.0.1"
    FromAuth := true, ToRepoURL := "https://dst.example/repo.git"
    ToTag := "v0.0.1", ToAuth := true, OutputDir := "/tmp/wd"
    OnTagExistsBehavior := "skip" }

def errUpToDate : PushErr := { msg := "already up-to-date", alreadyUpToDate := true }

def envSkip : GitEnv :=
  { sourceList := Except.ok ["refs/tags/v0.0.1", "refs/heads/main"]
    cloneRes := CloneRes.cloned, createRemoteRes := RemoteRes.created
    originRefHash := Except.ok "0a1b2c", tagRefHash := Except.ok "0a1b2c"
    pushRes := some errUpToDate
    destList := Except.ok ["refs/tags/v0.0.1", "refs/heads/main"] }

/-- Witness for C4: a concrete already-up-to-date push under `"skip"`
policy with the tag present on the destination yields the non-error
skipped outcome. -/
theorem claim_c4_conflict_policy_witness :
    (pushPhase optsSkip ["0a1b2c:refs/tags/v0.0.1"] envSkip).1
      = PerformResult.okSkipped ∧
    toGoError (pushPhase optsSkip ["0a1b2c:refs/tags/v0.0.1"] envSkip).1
      = none :=
  ((claim_c4_conflict_policy optsSkip ["0a1b2c:refs/tags/v0.0.1"] envSkip
    errUpToDate rfl (by decide) rfl).1 (by decide)).2 rfl

/-- `{ opts with OnTagExistsBehavior := p }`, for stating that behavior
ahead of the policy switch does not depend on the policy string. -/
def policySet (opts : GitOperationOptions) (p : String) : GitOperationOptions :=
  { opts with OnTagExistsBehavior := p }

/-- C10: on an already-up-to-date push with destination classification
`Tag`, a policy string other than `"error"` and `"skip"` hits the
`default` switch arm: the operation returns the unknown-behavior error
(neither a success nor the skipped outcome), and the actions performed
are identical for every policy string. -/
theorem claim_c10_unknown_policy (opts : GitOperationOptions)
    (specs : List String) (env : GitEnv) (e : PushErr)
    (hp : env.pushRes = some e)
    (hq : strContains e.msg quirkMsg = false)
    (hu : e.alreadyUpToDate = true)
    (ht : checkRemoteRefExistence env.destList (effectiveTag opts)
      = Except.ok RefType.tag)
    (h1 : opts.OnTagExistsBehavior ≠ "error")
    (h2 : opts.OnTagExistsBehavior ≠ "skip") :
    (pushPhase opts specs env).1 = PerformResult.err
      ("未知的 --on-tag-exists 行为: " ++ opts.OnTagExistsBehavior) ∧
    toGoError (pushPhase opts specs env).1 ≠ none ∧
    ∀ p : String,
      (pushPhase (policySet opts p) specs env).2 = (pushPhase opts specs env).2 := by
  refine ⟨?_, ?_, ?_⟩
  · simp [pushPhase, hp, hq, hu, ht, h1, h2]
  · simp [pushPhase, hp, hq, hu, ht, h1, h2, toGoError]
  · intro p
    have hte : checkRemoteRefExistence env.destList (effectiveTag (policySet opts p))
        = Except.ok RefType.tag := ht
    simp only [pushPhase, hp, hq, hu, ht, hte]
    simp [policySet, h1, h2, effectiveTag, mkPushOptions, mkListOptions]
    split_ifs <;> rfl

def optsUnknownPolicy : GitOperationOptions :=
  { FromRepoURL := "https://src.example/repo.git", FromRef := "v0.0.1"
    FromAuth := true, ToRepoURL := "https://dst.example/repo.git"
    ToTag := "v0.0.1", ToAuth := true, OutputDir := "/tmp/wd"
    OnTagExistsBehavior := "overwrite" }

/-- Witness for C10 on the concrete policy string `"overwrite"`. -/
theorem claim_c10_unknown_policy_witness :
    (pushPhase optsUnknownPolicy ["0a1b2c:refs/tags/v0.0.1"] envSkip).1
      = PerformResult.err
        ("未知的 --on-tag-exists 行为: " ++ optsUnknownPolicy.OnTagExistsBehavior) :=
  (claim_c10_unknown_policy optsUnknownPolicy ["0a1b2c:refs/tags/v0.0.1"] envSkip
    errUpToDate rfl (by decide) rfl (by decide) (by decide) (by decide)).1

/-- C6: when the source reference name is classified `Unresolved`
(absent from the source remote), the operation fails immediately: the
only action performed is the source reference listing — no clone, no
open of the working directory, and no push touch the local directory or
the destination. -/
theorem claim_c6_unresolved_aborts (opts : GitOperationOptions) (env : GitEnv)
    (h : checkRemoteRefExistence env.sourceList opts.FromRef
      = Except.ok RefType.unknown) :
    (PerformGitOperation opts env).1
      = PerformResult.err ("源仓库中未找到分支或标签: " ++ opts.FromRef) ∧
    (PerformGitOperation opts env).2
      = [Action.listSource (mkListOptions opts.FromAuth)] ∧
    (∀ c : CloneOptionsM,
      Action.cloneAttempt c ∉ (PerformGitOperation opts env).2) ∧
    (∀ (po : PushOptionsM) (specs : List String),
      Action.push po specs ∉ (PerformGitOperation opts env).2) := by
  refine ⟨?_, ?_, ?_, ?_⟩ <;> simp [PerformGitOperation, h]

def envUnresolved : GitEnv :=
  { sourceList := Except.ok ["refs/heads/main"]
    cloneRes := CloneRes.cloned, createRemoteRes := RemoteRes.created
    originRefHash := Except.ok "0a1b2c", tagRefHash := Except.ok "0a1b2c"
    pushRes := none, destList := Except.ok [] }

/-- Witness for C6: asking for `v9.9.9`, absent from a remote that only
has `main`, aborts after the listing alone. -/
theorem claim_c6_unresolved_aborts_witness :
    (PerformGitOperation optsQuirk envUnresolved).1
      = PerformResult.err ("源仓库中未找到分支或标签: " ++ optsQuirk.FromRef) ∧
    (PerformGitOperation optsQuirk envUnresolved).2
      = [Action.listSource (mkListOptions optsQuirk.FromAuth)] :=
  ⟨(claim_c6_unresolved_aborts optsQuirk envUnresolved (by decide)).1,
   (claim_c6_unresolved_aborts optsQuirk envUnresolved (by decide)).2.1⟩

/-- C7: the clone options request depth-1 history, a single branch, and
exactly the one resolved reference; and when the working directory
already holds a repository (`ErrRepositoryAlreadyExists` answered by a
successful `PlainOpen`), the run proceeds to the remote/push steps with
the identical result, performing no second clone and no refresh. -/
theorem claim_c7_clone_minimal_and_reuse (opts : GitOperationOptions)
    (env : GitEnv) (rt : RefType)
    (h : checkRemoteRefExistence env.sourceList opts.FromRef = Except.ok rt)
    (hrt : rt = RefType.tag ∨ rt = RefType.branch) :
    ((mkCloneOptions opts rt).depth = 1 ∧
     (mkCloneOptions opts rt).singleBranch = true ∧
     (mkCloneOptions opts rt).referenceName =
       (if rt = RefType.tag then "refs/tags/" ++ opts.FromRef
        else "refs/heads/" ++ opts.FromRef)) ∧
    (env.cloneRes = CloneRes.alreadyExistsOpenOk →
      (PerformGitOperation opts env).1 = (afterCloneStage opts rt env).1 ∧
      (PerformGitOperation opts env).2 =
        [Action.listSource (mkListOptions opts.FromAuth),
         Action.cloneAttempt (mkCloneOptions opts rt), Action.openExisting]
          ++ (afterCloneStage opts rt env).2) := by
  rcases hrt with hh | hh <;> subst hh <;>
    refine ⟨⟨rfl, rfl, by simp [mkCloneOptions]⟩, ?_⟩ <;>
    intro hc <;> constructor <;> simp [PerformGitOperation, h, hc]

def envReuse : GitEnv :=
  { sourceList := Except.ok ["refs/tags/v0.0.1", "refs/heads/main"]
    cloneRes := CloneRes.alreadyExistsOpenOk, createRemoteRes := RemoteRes.created
    originRefHash := Except.ok "0a1b2c", tagRefHash := Except.ok "0a1b2c"
    pushRes := none, destList := Except.ok [] }

/-- Witness for C7 on a concrete run that finds the working directory
already populated. -/
theorem claim_c7_clone_minimal_and_reuse_witness :
    (mkCloneOptions optsQuirk RefType.tag).depth = 1 ∧
    (PerformGitOperation optsQuirk envReuse).1
      = (afterCloneStage optsQuirk RefType.tag envReuse).1 :=
  ⟨(claim_c7_clone_minimal_and_reuse optsQuirk envReuse RefType.tag
      (by decide) (Or.inl rfl)).1.1,
   ((claim_c7_clone_minimal_and_reuse optsQuirk envReuse RefType.tag
      (by decide) (Or.inl rfl)).2 rfl).1⟩

/-! ### C3: what the final publish pushes when no destination tag name
is given -/

/-- The refspec list carried by a push action, if any. -/
def pushSpecsOf : Action → Option (List String)
  | Action.push _ s => some s
  | _ => none

def optsC3 : GitOperationOptions :=
  { FromRepoURL := "https://src.example/repo.git", FromRef := "dev"
    FromAuth := true, ToRepoURL := "https://dst.example/repo.git"
    ToTag := "", ToAuth := true, OutputDir := "/tmp/wd"
    OnTagExistsBehavior := "error" }

def envC3 : GitEnv :=
  { sourceList := Except.ok ["refs/heads/dev", "refs/heads/main"]
    cloneRes := CloneRes.cloned, createRemoteRes := RemoteRes.created
    originRefHash := Except.ok "0a1b2c", tagRefHash := Except.error "not found"
    pushRes := none, destList := Except.ok [] }

/-- Counterexample to C3: a source reference classified as a branch with
no destination-name override is NOT pushed as `refs/heads/dev` to the
same name — the one push of the run carries the all-tags refspec
`refs/tags/*:refs/tags/*` instead. -/
theorem claim_c3_counterexample :
    optsC3.ToTag = "" ∧
    checkRemoteRefExistence envC3.sourceList optsC3.FromRef
      = Except.ok RefType.branch ∧
    (PerformGitOperation optsC3 envC3).1 = PerformResult.ok ∧
    (PerformGitOperation optsC3 envC3).2.filterMap pushSpecsOf
      = [["refs/tags/*:refs/tags/*"]] ∧
    ["refs/heads/dev:refs/heads/dev"]
      ∉ (PerformGitOperation optsC3 envC3).2.filterMap pushSpecsOf := by
  decide

theorem pushPhase_push_specs (opts : GitOperationOptions) (specs : List String)
    (env : GitEnv) (po : PushOptionsM) (s : List String)
    (hm : Action.push po s ∈ (pushPhase opts specs env).2) : s = specs := by
  unfold pushPhase at hm
  rcases h1 : env.pushRes with _ | e <;> rw [h1] at hm
  · simp at hm
    exact hm.2
  · by_cases h2 : strContains e.msg quirkMsg
    · simp [h2] at hm
      exact hm.2
    · by_cases h3 : e.alreadyUpToDate
      · simp only [h2, h3] at hm
        rcases h4 : checkRemoteRefExistence env.destList (effectiveTag opts)
          with e2 | rt2 <;> simp only [h4] at hm
        · simp at hm
          exact hm.2
        · by_cases h5 : rt2 = RefType.tag <;>
            simp only [h5] at hm <;> split_ifs at hm <;>
            simp at hm <;> exact hm.2
      · simp [h2, h3] at hm
        exact hm.2

/-- C3 as the code actually behaves (amended claim): whenever the
destination tag-name override is absent the push refspecs are the
all-tags pattern `refs/tags/*:refs/tags/*` — regardless of whether the
source reference resolved as a branch — so every push of the publish
stage carries that refspec and a branch is never pushed under its own
name. -/
theorem claim_c3_amended (opts : GitOperationOptions) (rt : RefType)
    (env : GitEnv) (h : opts.ToTag = "") :
    mkPushRefSpecs opts rt env = Except.ok ["refs/tags/*:refs/tags/*"] ∧
    ∀ (po : PushOptionsM) (specs : List String),
      Action.push po specs ∈ (afterCloneStage opts rt env).2 →
      specs = ["refs/tags/*:refs/tags/*"] := by
  have hr : mkPushRefSpecs opts rt env = Except.ok ["refs/tags/*:refs/tags/*"] := by
    simp [mkPushRefSpecs, h]
  refine ⟨hr, ?_⟩
  intro po specs hm
  unfold afterCloneStage at hm
  rcases hc : env.createRemoteRes with _ | _ | e | e <;>
    rw [hc] at hm <;> rw [hr] at hm <;> simp at hm <;>
    exact pushPhase_push_specs opts _ env po specs hm

/-- Witness for the amended C3 with a branch source and no override. -/
theorem claim_c3_amended_witness :
    mkPushRefSpecs optsC3 RefType.branch envC3
      = Except.ok ["refs/tags/*:refs/tags/*"] :=
  (claim_c3_amended optsC3 RefType.branch envC3 rfl).1

/-! ### C9: TLS validation on the three remote transport calls -/

/-- Counterexample to C9: the caller's option bundle has no
allow-insecure field at all — `optsC3` requests nothing insecure — yet
all three transport option records are built with
`InsecureSkipTLS: true`, so certificate validation is skipped without any
caller opt-in. -/
theorem claim_c9_counterexample :
    (mkCloneOptions optsC3 RefType.branch).insecureSkipTLS = true ∧
    (mkPushOptions optsC3).insecureSkipTLS = true ∧
    (mkListOptions optsC3.FromAuth).insecureSkipTLS = true := by
  decide

/-- C9 as the code actually behaves (amended claim): every remote Git
transport call — reference listing, clone and push — is configured with
`InsecureSkipTLS: true` unconditionally; TLS certificate validation is
always skipped and the operation options offer no way to enable it. -/
theorem claim_c9_amended (opts : GitOperationOptions) (rt : RefType) (b : Bool) :
    (mkCloneOptions opts rt).insecureSkipTLS = true ∧
    (mkPushOptions opts).insecureSkipTLS = true ∧
    (mkListOptions b).insecureSkipTLS = true :=
  ⟨rfl, rfl, rfl⟩

/-! ### The promotion shell script (steps 3-10)

The script is a straight line of git commands with early `exit 1`s.  It
is embedded as `scriptRun` over a `ScriptEnv` giving the outcome of each
command, returning the exit code, the trace of git actions performed and
the final value of the `REMOTE_TEMP_BRANCH_FOR_OBJECTS` variable. -/

/-- `TEMP_LOCAL_BRANCH_NAME="temp-mirror-local-$(date +%s)"`; `ts` is the
timestamp text produced by `date +%s`. -/
def tempLocalBranchName (ts : String) : String := "temp-mirror-local-" ++ ts

/-- `REMOTE_TEMP_BRANCH_FOR_OBJECTS="refs/heads/mirror-objects-${TEMP_LOCAL_BRANCH_NAME}"`. -/
def remoteTempBranchName (ts : String) : String :=
  "refs/heads/mirror-objects-" ++ tempLocalBranchName ts

/-- Outcome of each command the script runs. -/
structure ScriptEnv where
  ts : String
  cloneDir : String
  sourceRef : String
  dirPreexists : Bool
  preRmOk : Bool
  cloneOk : Bool
  hasTagRef : Bool
  hasBranchRef : Bool
  branchCreateOk : Bool
  remoteAddOk : Bool
  destMainExists : Bool
  pushObjectsOk : Bool
  pushRefOk : Bool
  deleteLocalOk : Bool
  deleteRemoteOk : Bool
  rmDirOk : Bool
  deriving Repr

/-- Git actions the script performs, in order. -/
inductive SAction where
  | rmDirPre (d : String)
  | clone (d : String)
  | createBranch (n : String)
  | remoteAdd
  | pushObjects (src dst : String)
  | pushRef (r : String)
  | deleteLocalBranch (n : String)
  | deleteRemoteBranch (n : String)
  | removeDir (d : String)
  | warn (w : String)
  deriving DecidableEq, Repr

/-- Result of a script run. -/
structure ScriptResult where
  exitCode : Nat
  trace : List SAction
  remoteTempVar : String
  deriving DecidableEq, Repr

/-- Steps 9-10 of the script: push the original reference, then the
best-effort cleanup block (local temp branch, remote temp branch only
when one was recorded, clone directory); every cleanup failure is a
warning and the exit code stays 0. -/
def scriptSteps910 (env : ScriptEnv) (rt : RefType) (tr : List SAction)
    (rtv : String) : ScriptResult :=
  let refPush :=
    if rt = RefType.tag then "refs/tags/" ++ env.sourceRef
    else "refs/heads/" ++ env.sourceRef
  let tr5 := tr ++ [SAction.pushRef refPush]
  if !env.pushRefOk then { exitCode := 1, trace := tr5, remoteTempVar := rtv }
  else
    let tr6 := tr5 ++ [SAction.deleteLocalBranch (tempLocalBranchName env.ts)]
      ++ (if !env.deleteLocalOk then [SAction.warn "delete-local-branch-failed"] else [])
    let tr7 := tr6 ++
      (if rtv ≠ "" then
        [SAction.deleteRemoteBranch rtv]
          ++ (if !env.deleteRemoteOk then [SAction.warn "delete-remote-branch-failed"] else [])
       else [])
    let tr8 := tr7 ++ [SAction.removeDir env.cloneDir]
      ++ (if !env.rmDirOk then [SAction.warn "remove-clone-dir-failed"] else [])
    { exitCode := 0, trace := tr8, remoteTempVar := rtv }

/-- Steps 3-8 of the script, continuing into `scriptSteps910`: pre-clean
of a pre-existing clone directory, clone, reference resolution (tag
checked before branch), local temp branch creation, remote registration,
then the object upload — to the uniquely named remote temp branch when
the destination `main` exists, directly onto `refs/heads/main` (clearing
the remote-temp-branch variable) when it does not. -/
def scriptRun (env : ScriptEnv) : ScriptResult :=
  let dir := env.cloneDir
  let tempLocal := tempLocalBranchName env.ts
  let remoteTemp := remoteTempBranchName env.ts
  let tr0 : List SAction := if env.dirPreexists then [SAction.rmDirPre dir] else []
  if env.dirPreexists && !env.preRmOk then
    { exitCode := 1, trace := tr0, remoteTempVar := "" }
  else
    let tr1 := tr0 ++ [SAction.clone dir]
    if !env.cloneOk then { exitCode := 1, trace := tr1, remoteTempVar := "" }
    else
      match (if env.hasTagRef then some RefType.tag
             else if env.hasBranchRef then some RefType.branch else none) with
      | none => { exitCode := 1, trace := tr1, remoteTempVar := "" }
      | some rt =>
        let tr2 := tr1 ++ [SAction.createBranch tempLocal]
        if !env.branchCreateOk then
          { exitCode := 1, trace := tr2, remoteTempVar := "" }
        else
          let tr3 := tr2 ++ [SAction.remoteAdd]
          if !env.remoteAddOk then
            { exitCode := 1, trace := tr3, remoteTempVar := "" }
          else
            if env.destMainExists then
              let tr4 := tr3 ++ [SAction.pushObjects tempLocal remoteTemp]
              if !env.pushObjectsOk then
                { exitCode := 1, trace := tr4, remoteTempVar := remoteTemp }
              else scriptSteps910 env rt tr4 remoteTemp
            else
              let tr4 := tr3 ++ [SAction.pushObjects tempLocal "refs/heads/main"]
              if !env.pushObjectsOk then
                { exitCode := 1, trace := tr4, remoteTempVar := remoteTemp }
              else scriptSteps910 env rt tr4 ""

theorem remoteTempBranchName_injEq (t1 t2 : String)
    (he : remoteTempBranchName t1 = remoteTempBranchName t2) : t1 = t2 := by
  unfold remoteTempBranchName tempLocalBranchName at he
  have h2 := congrArg String.data he
  rw [String.data_append, String.data_append, String.data_append,
    String.data_append] at h2
  exact String.ext (List.append_cancel_left (List.append_cancel_left h2))

/-- C1: for every run that reaches the object-upload step (step 8), the
strategy is selected by whether `refs/heads/main` exists on the
destination: if it exists, the ephemeral local branch is pushed to the
uniquely named ephemeral remote branch (the naming is injective in the
per-run timestamp); if it does not, the ephemeral local branch is pushed
directly onto `refs/heads/main`, no other object push happens, and no
ephemeral remote branch is ever deleted in cleanup because none was
created. -/
theorem claim_c1_upload_strategy (env : ScriptEnv)
    (h0 : (env.dirPreexists && !env.preRmOk) = false)
    (h1 : env.cloneOk = true)
    (h2 : env.hasTagRef = true ∨ env.hasBranchRef = true)
    (h3 : env.branchCreateOk = true)
    (h4 : env.remoteAddOk = true) :
    (env.destMainExists = true →
      SAction.pushObjects (tempLocalBranchName env.ts) (remoteTempBranchName env.ts)
        ∈ (scriptRun env).trace) ∧
    (env.destMainExists = false →
      SAction.pushObjects (tempLocalBranchName env.ts) "refs/heads/main"
        ∈ (scriptRun env).trace ∧
      (∀ s d, SAction.pushObjects s d ∈ (scriptRun env).trace →
        s = tempLocalBranchName env.ts ∧ d = "refs/heads/main") ∧
      (∀ n, SAction.deleteRemoteBranch n ∉ (scriptRun env).trace)) ∧
    (∀ t1 t2 : String, t1 ≠ t2 →
      remoteTempBranchName t1 ≠ remoteTempBranchName t2) := by
  have hb : env.hasTagRef = true ∨ (env.hasTagRef = false ∧ env.hasBranchRef = true) := by
    cases hh : env.hasTagRef
    · rcases h2 with h | h
      · exact absurd h (by simp [hh])
      · exact Or.inr ⟨rfl, h⟩
    · exact Or.inl rfl
  refine ⟨?_, ?_, fun t1 t2 hne he => hne (remoteTempBranchName_injEq t1 t2 he)⟩
  · intro hd
    rcases hb with ht | ⟨ht, hbr2⟩
    · simp [scriptRun, scriptSteps910, h0, h1, h3, h4, hd, ht] <;>
        split_ifs <;> simp
    · simp [scriptRun, scriptSteps910, h0, h1, h3, h4, hd, ht, hbr2] <;>
        split_ifs <;> simp
  · intro hd
    rcases hb with ht | ⟨ht, hbr2⟩
    · refine ⟨?_, ?_, ?_⟩ <;>
        simp [scriptRun, scriptSteps910, h0, h1, h3, h4, hd, ht] <;>
        split_ifs <;> simp
    · refine ⟨?_, ?_, ?_⟩ <;>
        simp [scriptRun, scriptSteps910, h0, h1, h3, h4, hd, ht, hbr2] <;>
        split_ifs <;> simp

def envC1 : ScriptEnv :=
  { ts := "1717171717", cloneDir := "temp_clone_dir_20240601", sourceRef := "v0.0.1"
    dirPreexists := false, preRmOk := true, cloneOk := true
    hasTagRef := true, hasBranchRef := false, branchCreateOk := true
    remoteAddOk := true, destMainExists := true, pushObjectsOk := true
    pushRefOk := true, deleteLocalOk := true, deleteRemoteOk := true
    rmDirOk := true }

/-- Witness for C1: a concrete run against a destination whose `main`
exists uploads the objects via the ephemeral remote branch. -/
theorem claim_c1_upload_strategy_witness :
    SAction.pushObjects (tempLocalBranchName "1717171717")
      (remoteTempBranchName "1717171717") ∈ (scriptRun envC1).trace :=
  (claim_c1_upload_strategy envC1 rfl rfl (Or.inl rfl) rfl rfl).1 rfl

def envC8 : ScriptEnv :=
  { ts := "1717171717", cloneDir := "temp_clone_dir_20240601", sourceRef := "v0.0.1"
    dirPreexists := false, preRmOk := true, cloneOk := true
    hasTagRef := true, hasBranchRef := false, branchCreateOk := true
    remoteAddOk := true, destMainExists := true, pushObjectsOk := false
    pushRefOk := true, deleteLocalOk := true, deleteRemoteOk := true
    rmDirOk := true }

/-- Counterexample to C8: a run that fails while pushing the commit
objects exits with code 1 and its trace contains no removal of the clone
directory — the working copy is left behind on this failure path. -/
theorem claim_c8_counterexample :
    (scriptRun envC8).exitCode = 1 ∧
    SAction.removeDir envC8.cloneDir ∉ (scriptRun envC8).trace ∧
    (scriptRun envC8).trace =
      [SAction.clone "temp_clone_dir_20240601",
       SAction.createBranch (tempLocalBranchName "1717171717"),
       SAction.remoteAdd,
       SAction.pushObjects (tempLocalBranchName "1717171717")
         (remoteTempBranchName "1717171717")] := by
  decide

/-- C8 as the code actually behaves (amended claim): the clone directory
is removed by the cleanup block only on the success path — any run that
reaches the final reference push successfully removes it and exits 0,
and a failure of the removal itself (or of either branch deletion) is a
warning only, never changing the exit code; a run that aborts earlier
exits without removing the directory (see the counterexample).  The Go
orchestration function performs no directory removal at all. -/
theorem claim_c8_amended (env : ScriptEnv)
    (h0 : (env.dirPreexists && !env.preRmOk) = false)
    (h1 : env.cloneOk = true)
    (h2 : env.hasTagRef = true ∨ env.hasBranchRef = true)
    (h3 : env.branchCreateOk = true)
    (h4 : env.remoteAddOk = true)
    (h5 : env.pushObjectsOk = true)
    (h6 : env.pushRefOk = true) :
    (scriptRun env).exitCode = 0 ∧
    SAction.removeDir env.cloneDir ∈ (scriptRun env).trace := by
  have hb : env.hasTagRef = true ∨ (env.hasTagRef = false ∧ env.hasBranchRef = true) := by
    cases hh : env.hasTagRef
    · rcases h2 with h | h
      · exact absurd h (by simp [hh])
      · exact Or.inr ⟨rfl, h⟩
    · exact Or.inl rfl
  constructor
  · rcases hb with ht | ⟨ht, hbr2⟩
    · cases hd : env.destMainExists <;>
        simp [scriptRun, scriptSteps910, h0, h1, h3, h4, h5, h6, hd, ht] <;>
        split_ifs <;> simp
    · cases hd : env.destMainExists <;>
        simp [scriptRun, scriptSteps910, h0, h1, h3, h4, h5, h6, hd, ht, hbr2] <;>
        split_ifs <;> simp
  · rcases hb with ht | ⟨ht, hbr2⟩
    · cases hd : env.destMainExists <;>
        simp [scriptRun, scriptSteps910, h0, h1, h3, h4, h5, h6, hd, ht] <;>
        split_ifs <;> simp
    · cases hd : env.destMainExists <;>
        simp [scriptRun, scriptSteps910, h0, h1, h3, h4, h5, h6, hd, ht, hbr2] <;>
        split_ifs <;> simp

def envC8ok : ScriptEnv :=
  { ts := "1717171717", cloneDir := "temp_clone_dir_20240601", sourceRef := "v0.0.1"
    dirPreexists := false, preRmOk := true, cloneOk := true
    hasTagRef := true, hasBranchRef := false, branchCreateOk := true
    remoteAddOk := true, destMainExists := true, pushObjectsOk := true
    pushRefOk := true, deleteLocalOk := true, deleteRemoteOk := true
    rmDirOk := false }

/-- Witness for the amended C8: a successful run whose final `rm -rf`
fails still attempts the removal and still exits 0 — the removal failure
is only a warning. -/
theorem claim_c8_amended_witness :
    (scriptRun envC8ok).exitCode = 0 ∧
    SAction.removeDir envC8ok.cloneDir ∈ (scriptRun envC8ok).trace :=
  claim_c8_amended envC8ok rfl rfl (Or.inl rfl) rfl rfl rfl rfl

end GitlabForkCli
